import Mathlib

/-!
Verification of the streamlit_test repository core:
the retry decorator, the API client helpers (cached_get, health_check),
and the dataframe helpers (load_data, process_data, generate_summary_stats).

Shallow embedding: pure Lean functions translated from
src/utils/api_clients.py and src/utils/data_helpers.py.
Library calls (requests, pandas, streamlit caching) are modelled
explicitly where the spec describes their behaviour.
-/

namespace StreamlitTest

/-! ### Retry decorator (src/utils/api_clients.py, retry_on_failure) -/

/-- Outcome of one underlying transport attempt: either a decoded value or
a requests.exceptions.RequestException, identified by a string payload. -/
inductive Attempt (α : Type) where
  | ok (v : α)
  | err (e : String)
deriving DecidableEq, Repr

/-- Result of the wrapped call: normal return, a re-raised transport error,
or the degenerate raise of None when the loop body never ran. -/
inductive RetryOutcome (α : Type) where
  | success (v : α)
  | raised (e : String)
  | raisedNone
deriving DecidableEq, Repr

/-- The for-loop body of retry_on_failure, iterating over the attempt
indices of range(max_retries), threading last_error and recording the
duration of every sleep performed between attempts.  Faithful to
src/utils/api_clients.py lines 14-23: on success return at once; on a
transport error record it and, when the attempt is not the last one,
sleep delay * (attempt + 1); after the loop re-raise the last error. -/
def retryFor (f : Nat → Attempt α) (maxRetries delay : Nat) :
    List Nat → Option String → RetryOutcome α × List Nat
  | [], lastError =>
    (match lastError with
     | some e => RetryOutcome.raised e
     | none => RetryOutcome.raisedNone, [])
  | attempt :: rest, _ =>
    match f attempt with
    | Attempt.ok v => (RetryOutcome.success v, [])
    | Attempt.err e =>
      let sleeps := if attempt < maxRetries - 1 then [delay * (attempt + 1)] else []
      let r := retryFor f maxRetries delay rest (some e)
      (r.1, sleeps ++ r.2)

/-- retry_on_failure(max_retries, delay) applied to an underlying call f,
where f is indexed by the attempt number (the transport behaves
differently on different attempts).  Returns the call outcome together
with the list of sleep durations, in order. -/
def retry_on_failure (maxRetries delay : Nat) (f : Nat → Attempt α) :
    RetryOutcome α × List Nat :=
  retryFor f maxRetries delay (List.range maxRetries) none

/-! ### Tabular data model (pandas DataFrame, as used by src/utils/data_helpers.py) -/

/-- A cell value of a dataframe. -/
inductive Value where
  | null
  | int (i : Int)
  | str (s : String)
deriving DecidableEq, Repr

/-- A pandas column dtype, as far as select_dtypes in
generate_summary_stats distinguishes them. -/
inductive DType where
  | int64
  | float64
  | object
  | category
  | boolDT
  | datetime64
deriving DecidableEq, Repr

/-- A DataFrame: an ordered list of (name, dtype) columns and a list of
rows, each row a total map from column names to values. -/
structure Table where
  cols : List (String × DType)
  rows : List (String → Value)

/-- The column names of a table, in order. -/
def Table.colNames (t : Table) : List String :=
  t.cols.map Prod.fst

/-- The empty table. -/
def emptyTable : Table := ⟨[], []⟩

/-- Python-level errors a data_helpers call can raise. -/
inductive PError where
  | keyError (col : String)
  | valueError (msg : String)
deriving DecidableEq, Repr

/-! ### process_data (src/utils/data_helpers.py lines 40-65) -/

/-- Parameter payloads of the three recognised operations of
process_data: filter carries a dict column to value, group carries by
and agg, sort carries by and an optional ascending flag
(params.get with default True). -/
inductive Params where
  | filterP (conds : List (String × Value))
  | groupP (by_ : List String) (agg : List (String × String))
  | sortP (by_ : List String) (ascending : Option Bool)

/-- One equality-filter step, processed_df[processed_df[col] == value]:
keep the rows whose value in col equals value; a column name absent from
the frame raises KeyError. -/
def filterOnce (t : Table) (col : String) (v : Value) : Except PError Table :=
  if col ∈ t.colNames then
    Except.ok ⟨t.cols, t.rows.filter (fun r => decide (r col = v))⟩
  else
    Except.error (PError.keyError col)

/-- The filter branch of process_data: for col, value in params.items(),
apply the equality filters in dict order, threading the frame. -/
def filterConds (t : Table) : List (String × Value) → Except PError Table
  | [] => Except.ok t
  | (col, v) :: rest =>
    match filterOnce t col v with
    | Except.ok t1 => filterConds t1 rest
    | Except.error e => Except.error e

/-- Modelled from the spec: the pandas aggregate functions used by
groupby(...).agg(...) — sum adds the integer cells, count counts the
rows, anything else is out of the modelled fragment and yields null. -/
def aggregate (fn : String) (vals : List Value) : Value :=
  if fn = "sum" then
    Value.int (vals.foldl (fun acc v => match v with
      | Value.int i => acc + i
      | _ => acc) 0)
  else if fn = "count" then
    Value.int vals.length
  else Value.null

/-- Modelled from the spec: pandas groupby(by).agg(agg) — partition the
rows by the tuple of values in the grouping columns, producing one row
per distinct key in order of first appearance, holding the key values
and each aggregation column reduced by its aggregate function; a missing
grouping column raises KeyError. -/
def groupOp (t : Table) (by_ : List String) (agg : List (String × String)) :
    Except PError Table :=
  if by_.all (fun c => decide (c ∈ t.colNames)) then
    let keys := (t.rows.map (fun r => by_.map r)).dedup
    let outRows := keys.map (fun k =>
      let grp := t.rows.filter (fun r => decide (by_.map r = k))
      fun c =>
        match by_.indexOf? c with
        | some i => k.getD i Value.null
        | none =>
          match agg.lookup c with
          | some fn => aggregate fn (grp.map (fun r => r c))
          | none => Value.null)
    Except.ok ⟨by_.map (fun c => (c, DType.object)) ++
               agg.map (fun p => (p.1, DType.object)), outRows⟩
  else
    Except.error (PError.keyError (by_.filter
      (fun c => decide (c ∉ t.colNames))).head!)

/-- Modelled from the spec: a total comparison on cell values standing
in for the pandas sort order — nulls first, then integers numerically,
then strings lexicographically. -/
def leValue : Value → Value → Bool
  | Value.null, _ => true
  | Value.int _, Value.null => false
  | Value.int i, Value.int j => decide (i ≤ j)
  | Value.int _, Value.str _ => true
  | Value.str _, Value.null => false
  | Value.str _, Value.int _ => false
  | Value.str a, Value.str b => decide (a ≤ b)

/-- Lexicographic comparison of two sort-key tuples. -/
def leKeys (asc : Bool) : List Value → List Value → Bool
  | [], [] => true
  | [], _ => true
  | _, [] => false
  | a :: as_, b :: bs =>
    if a = b then leKeys asc as_ bs
    else if asc then leValue a b else leValue b a

/-- Lexicographic comparison of two rows on the named sort columns. -/
def leRowsOn (by_ : List String) (asc : Bool) (r1 r2 : String → Value) : Bool :=
  leKeys asc (by_.map r1) (by_.map r2)

/-- Stable insertion into a sorted row list, preserving the relative
order of rows comparing equal. -/
def insertRow (le : (String → Value) → (String → Value) → Bool)
    (r : String → Value) : List (String → Value) → List (String → Value)
  | [] => [r]
  | x :: xs => if le x r then x :: insertRow le r xs else r :: x :: xs

/-- Stable insertion sort of the rows. -/
def sortRows (le : (String → Value) → (String → Value) → Bool) :
    List (String → Value) → List (String → Value)
  | [] => []
  | x :: xs => insertRow le x (sortRows le xs)

/-- Modelled from the spec: pandas sort_values(by, ascending) — a stable
sort of the rows by the named columns, ascending unless told otherwise;
a missing sort column raises KeyError. -/
def sortOp (t : Table) (by_ : List String) (ascending : Option Bool) :
    Except PError Table :=
  if by_.all (fun c => decide (c ∈ t.colNames)) then
    Except.ok ⟨t.cols, sortRows (leRowsOn by_ (ascending.getD true)) t.rows⟩
  else
    Except.error (PError.keyError (by_.filter
      (fun c => decide (c ∉ t.colNames))).head!)

/-- The dispatch of the process_data loop body on one (op, params)
entry: filter, group and sort run the corresponding operation on the
current frame; any other operation name falls through every branch and
leaves the frame untouched. -/
def applyOp (t : Table) (op : String) (p : Params) : Except PError Table :=
  if op = "filter" then
    match p with
    | Params.filterP conds => filterConds t conds
    | _ => Except.error (PError.valueError "bad filter params")
  else if op = "group" then
    match p with
    | Params.groupP by_ agg => groupOp t by_ agg
    | _ => Except.error (PError.valueError "bad group params")
  else if op = "sort" then
    match p with
    | Params.sortP by_ asc => sortOp t by_ asc
    | _ => Except.error (PError.valueError "bad sort params")
  else Except.ok t

/-- The for-loop of process_data over the operations dict entries. -/
def processGo (t : Table) : List (String × Params) → Except PError Table
  | [] => Except.ok t
  | (op, p) :: rest =>
    match applyOp t op p with
    | Except.ok t1 => processGo t1 rest
    | Except.error e => Except.error e

/-- process_data(df, operations): copy the input frame and apply each
operation in dict order.  In this pure embedding df.copy() is the
identity on the value; the heap embedding below tracks the copy. -/
def process_data (df : Table) (operations : List (String × Params)) :
    Except PError Table :=
  processGo df operations

/-! ### generate_summary_stats (src/utils/data_helpers.py lines 68-94) -/

/-- The dtypes select_dtypes(include=[int64, float64]) accepts. -/
def numericDtypes : List DType := [DType.int64, DType.float64]

/-- The dtypes select_dtypes(include=[object, category]) accepts. -/
def categoricalDtypes : List DType := [DType.object, DType.category]

/-- df.select_dtypes(include=inc).columns: the names of the columns
whose dtype is in the include list, in column order. -/
def selectDtypeCols (t : Table) (inc : List DType) : List String :=
  (t.cols.filter (fun c => decide (c.2 ∈ inc))).map Prod.fst

/-- df[col].value_counts().to_dict(): each distinct non-null value of
the column mapped to its occurrence count. -/
def valueCounts (t : Table) (col : String) : List (Value × Nat) :=
  let vals := t.rows.map (fun r => r col)
  (vals.dedup.filter (fun v => decide (v ≠ Value.null))).map
    (fun v => (v, (vals.filter (fun w => decide (w = v))).length))

/-- df.isnull().sum() for one column: the number of null cells. -/
def missingCount (t : Table) (col : String) : Nat :=
  (t.rows.filter (fun r => decide (r col = Value.null))).length

/-- The stats dictionary built by generate_summary_stats.  The
numeric_summary payload is the nested to_dict of describe():
column name to statistic name to value. -/
structure SummaryStats where
  row_count : Nat
  column_count : Nat
  numeric_columns : List String
  categorical_columns : List String
  missing_values : List (String × Nat)
  numeric_summary : List (String × List (String × Rat))
  categorical_summary : List (String × List (Value × Nat))

/-- generate_summary_stats(df), parametric in describeFn, the pandas
df[numeric_cols].describe().to_dict() library call.  Faithful to
src/utils/data_helpers.py lines 78-92: partition the columns by dtype,
then assemble the dictionary; the numeric and categorical summaries are
guarded by an emptiness test and fall back to the empty dict. -/
def generate_summary_stats
    (describeFn : Table → List String → List (String × List (String × Rat)))
    (df : Table) : SummaryStats :=
  let numeric_cols := selectDtypeCols df numericDtypes
  let categorical_cols := selectDtypeCols df categoricalDtypes
  { row_count := df.rows.length
    column_count := df.cols.length
    numeric_columns := numeric_cols
    categorical_columns := categorical_cols
    missing_values := df.colNames.map (fun c => (c, missingCount df c))
    numeric_summary :=
      if numeric_cols.length > 0 then describeFn df numeric_cols else []
    categorical_summary :=
      if categorical_cols.length > 0 then
        categorical_cols.map (fun c => (c, valueCounts df c))
      else [] }

/-! ### Heap-level view of process_data for the no-mutation contract.

Python tables are objects on a heap reached through references;
df.copy() allocates a fresh object and every pandas operation used by
process_data (boolean-mask indexing, groupby().agg, sort_values without
inplace) returns a newly allocated frame.  The heap is a list of
tables, a reference an index into it. -/

/-- The Python heap: every allocated table, in allocation order. -/
structure PyState where
  heap : List Table

/-- Allocate a fresh table object, returning the new state and the
reference to the object. -/
def alloc (s : PyState) (t : Table) : PyState × Nat :=
  (⟨s.heap ++ [t]⟩, s.heap.length)

/-- Read the table an existing reference points to. -/
def deref (s : PyState) (r : Nat) : Table :=
  s.heap.getD r emptyTable

/-- One iteration of the process_data loop at heap level: a recognised
operation computes its result and allocates it as a new object (or
raises); an unrecognised name matches no branch, so the binding and the
heap are untouched. -/
def applyOpRef (s : PyState) (pr : Nat) (op : String) (p : Params) :
    PyState × Except PError Nat :=
  if op = "filter" ∨ op = "group" ∨ op = "sort" then
    match applyOp (deref s pr) op p with
    | Except.ok t => ((alloc s t).1, Except.ok (alloc s t).2)
    | Except.error e => (s, Except.error e)
  else (s, Except.ok pr)

/-- The process_data loop at heap level, threading the state and the
reference bound to processed_df. -/
def processGoRef (s : PyState) (pr : Nat) :
    List (String × Params) → PyState × Except PError Nat
  | [] => (s, Except.ok pr)
  | (op, p) :: rest =>
    match applyOpRef s pr op p with
    | (s1, Except.ok pr1) => processGoRef s1 pr1 rest
    | (s1, Except.error e) => (s1, Except.error e)

/-- process_data at heap level: processed_df = df.copy() allocates a
fresh object, then the loop runs on that object. -/
def process_dataRef (s : PyState) (r : Nat) (ops : List (String × Params)) :
    PyState × Except PError Nat :=
  let a := alloc s (deref s r)
  processGoRef a.1 a.2 ops

/-! ### cached_get (src/utils/api_clients.py lines 108-120) -/

/-- A cache entry list: key paired with the stored value and its
insertion time; newest entries in front. -/
def lookupEntry [DecidableEq K] : List (K × V × Nat) → K → Option (V × Nat)
  | [], _ => none
  | (k, v, t) :: rest, key => if k = key then some (v, t) else lookupEntry rest key

/-- The result of one cached call: the value handed to the caller, the
cache afterwards, and how many live network calls were issued (0 or 1). -/
structure CacheResult (K V : Type) where
  value : V
  cache : List (K × V × Nat)
  liveCalls : Nat

/-- Modelled from the spec: the st.cache_data(ttl) memoisation wrapping
cached_get, which is not part of this repository.  Entries are keyed by
the argument tuple and expire a fixed ttl after insertion; a valid entry
is returned without a live call, an expired or absent entry triggers the
wrapped live call and stores the fresh value with a new expiry. -/
def cacheDataCall [DecidableEq K] (net : K → Nat → V) (ttl : Nat)
    (cache : List (K × V × Nat)) (now : Nat) (key : K) : CacheResult K V :=
  match lookupEntry cache key with
  | some (v, ins) =>
    if now < ins + ttl then ⟨v, cache, 0⟩
    else ⟨net key now, (key, net key now, now) :: cache, 1⟩
  | none => ⟨net key now, (key, net key now, now) :: cache, 1⟩

/-- cached_get(endpoint, params): the live get call under
st.cache_data(ttl := 3600).  net is the underlying get, indexed by key
and call time. -/
def cached_get [DecidableEq K] (net : K → Nat → V)
    (cache : List (K × V × Nat)) (now : Nat) (key : K) : CacheResult K V :=
  cacheDataCall net 3600 cache now key

/-! ### health_check (src/utils/api_clients.py lines 122-133) -/

/-- response.get(field) on a decoded flat JSON object. -/
def jsonGet : List (String × String) → String → Option String
  | [], _ => none
  | (k, v) :: rest, key => if k = key then some v else jsonGet rest key

/-- health_check(): runs self.get("health") — whose outcome is either a
decoded body or some raised exception — and returns whether the status
field equals "healthy"; the bare except maps every raised exception to
False, so the function is total. -/
def health_check (outcome : Except String (List (String × String))) : Bool :=
  match outcome with
  | Except.ok response => decide (jsonGet response "status" = some "healthy")
  | Except.error _ => false

/-! ### load_data (src/utils/data_helpers.py lines 7-37) -/

/-- The input accepted by load_data: a Streamlit UploadedFile (an object
with a name attribute and byte content), a file path string, or a value
of any other Python type. -/
inductive UploadInput where
  | namedStream (name : String) (content : String)
  | pathString (path : String)
  | other (typeName : String)

/-- Whether pat occurs at the start of the character list. -/
def leadsWith : List Char → List Char → Bool
  | [], _ => true
  | _ :: _, [] => false
  | a :: as_, b :: bs => a = b && leadsWith as_ bs

/-- Whether pat occurs as a contiguous run inside the character list. -/
def hasRun (pat : List Char) : List Char → Bool
  | [] => leadsWith pat []
  | c :: cs => leadsWith pat (c :: cs) || hasRun pat cs

/-- Whether the message msg mentions the text piece, i.e. contains it
as a contiguous substring. -/
def mentions (msg piece : String) : Bool := hasRun piece.data msg.data

/-- The Python str.endswith test on filenames. -/
def strEndsWith (s suf : String) : Bool :=
  leadsWith suf.data.reverse s.data.reverse

/-- Split a character list on a separator character; n separators yield
n + 1 pieces. -/
def splitCharsOn (sep : Char) : List Char → List (List Char)
  | [] => [[]]
  | c :: cs =>
    if c = sep then [] :: splitCharsOn sep cs
    else match splitCharsOn sep cs with
      | [] => [[c]]
      | h :: t => (c :: h) :: t

/-- Split a string on a separator character. -/
def strSplitOn (s : String) (sep : Char) : List String :=
  (splitCharsOn sep s.data).map (fun l => String.mk l)

/-- The numeric value of a list of decimal digits. -/
def digitsToNat (l : List Char) : Nat :=
  l.foldl (fun acc c => acc * 10 + (c.toNat - 48)) 0

/-- Modelled from the spec: the type a CSV cell decodes to under the
parser's inference — digits become an integer, an empty cell is
missing, anything else is text. -/
def parseCell (s : String) : Value :=
  if s.data = [] then Value.null
  else if s.data.all Char.isDigit then Value.int (digitsToNat s.data)
  else Value.str s

/-- Modelled from the spec: pandas read_csv on comma-delimited text with
a header row.  The first line names the columns; every further
non-empty line is a row of cells split on commas; a column of integer
cells gets dtype int64, any other column dtype object. -/
def read_csv (content : String) : Table :=
  match strSplitOn content '\n' with
  | [] => emptyTable
  | header :: body =>
    let colNames := strSplitOn header ','
    let cells := (body.filter (fun l => decide (l.data ≠ []))).map
      (fun line => (strSplitOn line ',').map parseCell)
    let colDtype := fun (i : Nat) =>
      if cells.all (fun row => match row.getD i Value.null with
        | Value.int _ => true
        | _ => false)
      then DType.int64 else DType.object
    let rows := cells.map (fun row => fun c =>
      match colNames.indexOf? c with
      | some i => row.getD i Value.null
      | none => Value.null)
    ⟨colNames.enum.map (fun p => (p.2, colDtype p.1)), rows⟩

/-- load_data(uploaded_file): dispatch on the shape of the input and the
trailing filename extension.  Faithful to src/utils/data_helpers.py
lines 17-37; readExcel stands for the pandas read_excel library call
and fs for the file system behind a path string. -/
def load_data (readExcel : String → Table) (fs : String → String) :
    UploadInput → Except PError Table
  | UploadInput.namedStream name content =>
    if strEndsWith name ".csv" then Except.ok (read_csv content)
    else if strEndsWith name ".xlsx" then Except.ok (readExcel content)
    else Except.error (PError.valueError ("Unsupported file format: " ++ name))
  | UploadInput.pathString path =>
    if strEndsWith path ".csv" then Except.ok (read_csv (fs path))
    else if strEndsWith path ".xlsx" then Except.ok (readExcel (fs path))
    else Except.error (PError.valueError ("Unsupported file format: " ++ path))
  | UploadInput.other _ => Except.error (PError.valueError "Invalid file input type")

/-! ### Shared sample data for concrete witnesses -/

/-- A row built from an association list, defaulting absent columns to
null, mirroring how a dataframe row answers a column lookup. -/
def assocRow : List (String × Value) → String → Value
  | [], _ => Value.null
  | (k, v) :: rest, c => if k = c then v else assocRow rest c

/-- A small concrete table used by the witnesses. -/
def sampleTable : Table :=
  ⟨[("a", DType.int64), ("b", DType.object)],
   [assocRow [("a", Value.int 1), ("b", Value.str "x")],
    assocRow [("a", Value.int 2), ("b", Value.str "y")],
    assocRow [("a", Value.int 1), ("b", Value.str "x")]]⟩

/-- A table with one bool-dtype column, as read_csv produces for a
column of True/False cells; select_dtypes classifies it neither as
numeric nor as categorical. -/
def boolColTable : Table :=
  ⟨[("flag", DType.boolDT)], []⟩

/-! ### C1: retry returns the late success and sleeps linearly -/

/-- C1: for a call under retry_on_failure with max_retries = 3 whose
transport fails on attempts 1 and 2, if attempt 3 succeeds the wrapped
call returns that success and sleeps exactly twice, for delay * 1 and
delay * 2; if attempt 3 also fails, the last transport error is
re-raised. -/
theorem retry_linear_backoff {α : Type} (d : Nat) (f : Nat → Attempt α)
    (e0 e1 : String) (h0 : f 0 = Attempt.err e0) (h1 : f 1 = Attempt.err e1) :
    (∀ v, f 2 = Attempt.ok v →
      retry_on_failure 3 d f = (RetryOutcome.success v, [d * 1, d * 2])) ∧
    (∀ e2, f 2 = Attempt.err e2 →
      retry_on_failure 3 d f = (RetryOutcome.raised e2, [d * 1, d * 2])) := by
  have hrange : List.range 3 = [0, 1, 2] := by decide
  constructor <;> intro x hx <;>
    simp [retry_on_failure, hrange, retryFor, h0, h1, hx]

/-- Witness for C1 at a concrete transport: fails twice, then returns 42
after sleeps of 1 and 2 time units. -/
theorem retry_linear_backoff_witness :
    retry_on_failure 3 1
        (fun n => if n < 2 then Attempt.err "ConnectionError" else Attempt.ok 42)
      = (RetryOutcome.success 42, [1 * 1, 1 * 2]) :=
  (retry_linear_backoff 1
    (fun n => if n < 2 then Attempt.err "ConnectionError" else Attempt.ok 42)
    "ConnectionError" "ConnectionError" rfl rfl).1 42 rfl

/-! ### C4: health_check never raises -/

/-- C4: health_check is a total boolean function of the outcome of
get("health"): it returns true exactly when the call succeeded and the
decoded body's status field is the literal "healthy", and it returns
false (rather than re-raising) on every raised exception. -/
theorem health_check_never_raises
    (outcome : Except String (List (String × String))) :
    (health_check outcome = true ↔
      ∃ r, outcome = Except.ok r ∧ jsonGet r "status" = some "healthy") ∧
    (∀ e, outcome = Except.error e → health_check outcome = false) := by
  cases outcome <;> simp [health_check]

/-- Witness for C4: a raised connection error against an unreachable
host yields false, a healthy body yields true. -/
theorem health_check_never_raises_witness :
    health_check (Except.error "ConnectionError") = false ∧
    health_check (Except.ok [("status", "healthy")]) = true :=
  ⟨(health_check_never_raises (Except.error "ConnectionError")).2
      "ConnectionError" rfl,
   (health_check_never_raises (Except.ok [("status", "healthy")])).1.mpr
      ⟨[("status", "healthy")], rfl, rfl⟩⟩

/-! ### C3: cached_get issues one live call within the TTL, two beyond it -/

/-- C3: starting from a cache with no entry for the key, the first
cached_get issues the live call and stores the result; a second call
within 3600 time units of the first insertion issues no live call and
returns the cached value (one live call in total), while a second call
more than 3600 time units after the first issues a fresh live call and
stores the fresh result with the new insertion time (two live calls in
total). -/
theorem cached_get_ttl {K V : Type} [DecidableEq K] (net : K → Nat → V)
    (cache : List (K × V × Nat)) (t1 t2 : Nat) (key : K)
    (habsent : lookupEntry cache key = none) :
    (cached_get net cache t1 key).liveCalls = 1 ∧
    (cached_get net cache t1 key).value = net key t1 ∧
    (t2 < t1 + 3600 →
      (cached_get net (cached_get net cache t1 key).cache t2 key).liveCalls = 0 ∧
      (cached_get net (cached_get net cache t1 key).cache t2 key).value
        = net key t1 ∧
      (cached_get net cache t1 key).liveCalls
        + (cached_get net (cached_get net cache t1 key).cache t2 key).liveCalls
        = 1) ∧
    (t1 + 3600 < t2 →
      (cached_get net (cached_get net cache t1 key).cache t2 key).liveCalls = 1 ∧
      (cached_get net (cached_get net cache t1 key).cache t2 key).value
        = net key t2 ∧
      lookupEntry
        (cached_get net (cached_get net cache t1 key).cache t2 key).cache key
        = some (net key t2, t2) ∧
      (cached_get net cache t1 key).liveCalls
        + (cached_get net (cached_get net cache t1 key).cache t2 key).liveCalls
        = 2) := by
  have h1 : cached_get net cache t1 key
      = ⟨net key t1, (key, net key t1, t1) :: cache, 1⟩ := by
    simp [cached_get, cacheDataCall, habsent]
  refine ⟨by rw [h1], by rw [h1], ?_, ?_⟩
  · intro hlt
    rw [h1]
    simp [cached_get, cacheDataCall, lookupEntry, hlt]
  · intro hgt
    rw [h1]
    have hnot : ¬ t2 < t1 + 3600 := by omega
    simp [cached_get, cacheDataCall, lookupEntry, hnot]

/-- Witness for C3 at a concrete key and clock: first call at time 0,
second at time 10 (within the TTL) issues no live call and returns the
cached value; a second call at time 5000 (beyond the TTL) issues a
fresh live call. -/
theorem cached_get_ttl_witness :
    ((cached_get (fun (k t : Nat) => k + t) [] 0 7).liveCalls = 1 ∧
      (cached_get (fun (k t : Nat) => k + t)
        (cached_get (fun (k t : Nat) => k + t) [] 0 7).cache 10 7).liveCalls
        = 0) ∧
    (cached_get (fun (k t : Nat) => k + t)
      (cached_get (fun (k t : Nat) => k + t) [] 0 7).cache 5000 7).liveCalls
      = 1 :=
  ⟨⟨(cached_get_ttl (fun (k t : Nat) => k + t) [] 0 10 7 rfl).1,
    ((cached_get_ttl (fun (k t : Nat) => k + t) [] 0 10 7 rfl).2.2.1
      (by decide)).1⟩,
   ((cached_get_ttl (fun (k t : Nat) => k + t) [] 0 5000 7 rfl).2.2.2
      (by decide)).1⟩

/-! ### Helper lemmas on process_data -/

/-- process_data on a one-entry operations dict is the dispatch on that
entry. -/
lemma process_data_single (t : Table) (op : String) (p : Params) :
    process_data t [(op, p)] = applyOp t op p := by
  simp only [process_data, processGo]
  cases h : applyOp t op p <;> simp [h, processGo]

/-- The filter branch of the dispatch. -/
lemma applyOp_filter (t : Table) (conds : List (String × Value)) :
    applyOp t "filter" (Params.filterP conds) = filterConds t conds := rfl

/-- A one-condition filter dict is one equality-filter step. -/
lemma filterConds_single (t : Table) (c : String) (v : Value) :
    filterConds t [(c, v)] = filterOnce t c v := by
  cases h : filterOnce t c v <;> simp [filterConds, h]

/-- Two successive equality filters keep exactly the rows passing both
predicates conjunctively. -/
lemma filter_filter_conj (p q : (String → Value) → Bool)
    (l : List (String → Value)) :
    (l.filter p).filter q = l.filter (fun r => p r && q r) := by
  rw [List.filter_filter]
  exact List.filter_congr (fun x _ => Bool.and_comm _ _)

/-! ### C5: filter keeps exactly the matching rows -/

/-- C5: for a column present in the table, process_data with the single
filter operation col = v succeeds, every row of the result satisfies
row col = v, and every row of the input satisfying it is retained. -/
theorem filter_rows_characterized (t : Table) (col : String) (v : Value)
    (hcol : col ∈ t.colNames) :
    ∃ t2, process_data t [("filter", Params.filterP [(col, v)])]
        = Except.ok t2 ∧
      (∀ r ∈ t2.rows, r col = v) ∧
      (∀ r ∈ t.rows, r col = v → r ∈ t2.rows) := by
  refine ⟨⟨t.cols, t.rows.filter (fun r => decide (r col = v))⟩, ?_, ?_, ?_⟩
  · rw [process_data_single, applyOp_filter, filterConds_single]
    simp [filterOnce, hcol]
  · intro r hr
    simpa using (List.mem_filter.1 hr).2
  · intro r hr hv
    exact List.mem_filter.2 ⟨hr, by simpa using hv⟩

/-- Witness for C5 on a concrete three-row table. -/
theorem filter_rows_characterized_witness :
    ∃ t2, process_data sampleTable
        [("filter", Params.filterP [("a", Value.int 1)])] = Except.ok t2 ∧
      (∀ r ∈ t2.rows, r "a" = Value.int 1) ∧
      (∀ r ∈ sampleTable.rows, r "a" = Value.int 1 → r ∈ t2.rows) :=
  filter_rows_characterized sampleTable "a" (Value.int 1) (by decide)

/-! ### C8: successive filters equal one conjunctive filter, in either order -/

/-- A two-condition filter dict keeps exactly the rows satisfying both
equalities. -/
lemma filterConds_pair_eq (t : Table) (d1 d2 : String) (w1 w2 : Value)
    (hd1 : d1 ∈ t.colNames) (hd2 : d2 ∈ t.colNames) :
    filterConds t [(d1, w1), (d2, w2)]
      = Except.ok ⟨t.cols, t.rows.filter
          (fun r => decide (r d1 = w1) && decide (r d2 = w2))⟩ := by
  have s1 : filterOnce t d1 w1
      = Except.ok ⟨t.cols, t.rows.filter (fun r => decide (r d1 = w1))⟩ := by
    simp [filterOnce, hd1]
  have hd2' : d2 ∈ Table.colNames
      ⟨t.cols, t.rows.filter (fun r => decide (r d1 = w1))⟩ := hd2
  have s2 : filterOnce ⟨t.cols, t.rows.filter (fun r => decide (r d1 = w1))⟩ d2 w2
      = Except.ok ⟨t.cols, (t.rows.filter (fun r => decide (r d1 = w1))).filter
          (fun r => decide (r d2 = w2))⟩ := by
    simp [filterOnce, hd2']
  simp only [filterConds, s1, s2, filter_filter_conj]

/-- C8: applying the filter operation for c1 = v1 and then for c2 = v2
yields the same table as one compound filter with both conditions,
the result keeps exactly the rows satisfying both conjunctively, and
the compound filter is independent of the order of its conditions. -/
theorem filter_conjunctive_commutes (t : Table) (c1 c2 : String)
    (v1 v2 : Value) (h1 : c1 ∈ t.colNames) (h2 : c2 ∈ t.colNames) :
    ∃ t1 t12,
      process_data t [("filter", Params.filterP [(c1, v1)])] = Except.ok t1 ∧
      process_data t1 [("filter", Params.filterP [(c2, v2)])] = Except.ok t12 ∧
      process_data t [("filter", Params.filterP [(c1, v1), (c2, v2)])]
        = Except.ok t12 ∧
      t12.rows = t.rows.filter
        (fun r => decide (r c1 = v1) && decide (r c2 = v2)) ∧
      process_data t [("filter", Params.filterP [(c1, v1), (c2, v2)])]
        = process_data t [("filter", Params.filterP [(c2, v2), (c1, v1)])] := by
  have h2' : c2 ∈ Table.colNames
      ⟨t.cols, t.rows.filter (fun r => decide (r c1 = v1))⟩ := h2
  refine ⟨⟨t.cols, t.rows.filter (fun r => decide (r c1 = v1))⟩,
          ⟨t.cols, t.rows.filter
            (fun r => decide (r c1 = v1) && decide (r c2 = v2))⟩,
          ?_, ?_, ?_, rfl, ?_⟩
  · rw [process_data_single, applyOp_filter, filterConds_single]
    simp [filterOnce, h1]
  · rw [process_data_single, applyOp_filter, filterConds_single]
    simp [filterOnce, h2', filter_filter_conj]
    exact List.filter_congr (fun x _ => Bool.and_comm _ _)
  · rw [process_data_single, applyOp_filter]
    exact filterConds_pair_eq t c1 c2 v1 v2 h1 h2
  · rw [process_data_single, applyOp_filter, process_data_single, applyOp_filter,
      filterConds_pair_eq t c1 c2 v1 v2 h1 h2,
      filterConds_pair_eq t c2 c1 v2 v1 h2 h1]
    simp only [Except.ok.injEq, Table.mk.injEq, true_and]
    exact List.filter_congr (fun x _ => Bool.and_comm _ _)

/-- Witness for C8 on a concrete table and two concrete conditions. -/
theorem filter_conjunctive_commutes_witness :
    ∃ t1 t12,
      process_data sampleTable
        [("filter", Params.filterP [("a", Value.int 1)])] = Except.ok t1 ∧
      process_data t1
        [("filter", Params.filterP [("b", Value.str "x")])] = Except.ok t12 ∧
      process_data sampleTable
        [("filter", Params.filterP [("a", Value.int 1), ("b", Value.str "x")])]
        = Except.ok t12 ∧
      t12.rows = sampleTable.rows.filter
        (fun r => decide (r "a" = Value.int 1) && decide (r "b" = Value.str "x")) ∧
      process_data sampleTable
        [("filter", Params.filterP [("a", Value.int 1), ("b", Value.str "x")])]
        = process_data sampleTable
          [("filter", Params.filterP [("b", Value.str "x"), ("a", Value.int 1)])] :=
  filter_conjunctive_commutes sampleTable "a" "b" (Value.int 1) (Value.str "x")
    (by decide) (by decide)

/-! ### C10: unrecognised operation names are silently skipped -/

/-- C10: an operations entry whose name is not filter, group or sort
leaves the frame untouched and raises nothing, and process_data equals
process_data restricted to the recognised entries, in order. -/
theorem process_data_unknown_ops (t : Table) (ops : List (String × Params)) :
    (∀ op p, ¬ (op = "filter" ∨ op = "group" ∨ op = "sort") →
      applyOp t op p = Except.ok t) ∧
    process_data t ops
      = process_data t (ops.filter
          (fun q => decide (q.1 = "filter" ∨ q.1 = "group" ∨ q.1 = "sort"))) := by
  constructor
  · intro op p hop
    push_neg at hop
    simp [applyOp, hop.1, hop.2.1, hop.2.2]
  · show processGo t ops = processGo t _
    induction ops generalizing t with
    | nil => rfl
    | cons hd tl ih =>
      obtain ⟨op, p⟩ := hd
      by_cases hrec : op = "filter" ∨ op = "group" ∨ op = "sort"
      · rw [List.filter_cons_of_pos (by simpa using hrec)]
        simp only [processGo]
        cases applyOp t op p with
        | ok t1 => exact ih t1
        | error e => rfl
      · rw [List.filter_cons_of_neg (by simpa using hrec)]
        push_neg at hrec
        have hid : applyOp t op p = Except.ok t := by
          simp [applyOp, hrec.1, hrec.2.1, hrec.2.2]
        simp only [processGo, hid]
        exact ih t

/-- Witness for C10: a rename entry is skipped on a concrete table. -/
theorem process_data_unknown_ops_witness :
    applyOp sampleTable "rename" (Params.filterP []) = Except.ok sampleTable ∧
    process_data sampleTable [("rename", Params.filterP [])]
      = process_data sampleTable [] :=
  ⟨(process_data_unknown_ops sampleTable []).1 "rename" (Params.filterP [])
      (by decide),
   (process_data_unknown_ops sampleTable [("rename", Params.filterP [])]).2⟩

/-! ### C2: the numeric/categorical partition -/

/-- Membership in the column selection by dtype. -/
lemma mem_selectDtypeCols {t : Table} {inc : List DType} {c : String} :
    c ∈ selectDtypeCols t inc ↔ ∃ d, (c, d) ∈ t.cols ∧ d ∈ inc := by
  simp only [selectDtypeCols, List.mem_map, List.mem_filter, decide_eq_true_eq]
  constructor
  · rintro ⟨⟨a, b⟩, ⟨hmem, hinc⟩, rfl⟩
    exact ⟨b, hmem, hinc⟩
  · rintro ⟨d, hmem, hinc⟩
    exact ⟨(c, d), ⟨hmem, hinc⟩, rfl⟩

/-- When column names are unique, a name determines its dtype. -/
lemma dtype_unique {l : List (String × DType)} (h : (l.map Prod.fst).Nodup)
    {c : String} {d d' : DType} (h1 : (c, d) ∈ l) (h2 : (c, d') ∈ l) :
    d = d' := by
  induction l with
  | nil => cases h1
  | cons x xs ih =>
    rw [List.map_cons, List.nodup_cons] at h
    rcases List.mem_cons.1 h1 with rfl | h1'
    · rcases List.mem_cons.1 h2 with h2' | h2'
      · exact (Prod.mk.injEq _ _ _ _ ▸ h2'.symm).2
      · exact absurd (List.mem_map.2 ⟨(c, d'), h2', rfl⟩) h.1
    · rcases List.mem_cons.1 h2 with rfl | h2'
      · exact absurd (List.mem_map.2 ⟨(c, d), h1', rfl⟩) h.1
      · exact ih h.2 h1' h2'

/-- No dtype is both in the numeric and in the categorical include
list. -/
lemma dtype_lists_disjoint {d : DType} (h1 : d ∈ numericDtypes)
    (h2 : d ∈ categoricalDtypes) : False := by
  simp [numericDtypes] at h1
  rcases h1 with rfl | rfl <;> simp [categoricalDtypes] at h2

/-- C2 counterexample: on a table whose only column has dtype bool, the
column appears in neither numeric_columns nor categorical_columns, so
the partition computed by generate_summary_stats is not total. -/
theorem summary_partition_not_total :
    "flag" ∈ boolColTable.colNames ∧
    "flag" ∉ (generate_summary_stats (fun _ _ => []) boolColTable).numeric_columns ∧
    "flag" ∉ (generate_summary_stats (fun _ _ => []) boolColTable).categorical_columns := by
  refine ⟨?_, ?_, ?_⟩ <;> decide

/-- C2 (amended): the partition is disjoint, and it is total exactly on
the columns whose dtype is one of int64, float64, object, category: such
a column lands in exactly one of the two lists, while a column of any
other dtype (bool, datetime, ...) lands in neither. -/
theorem summary_partition_amended
    (describeFn : Table → List String → List (String × List (String × Rat)))
    (t : Table) (hnodup : t.colNames.Nodup) (c : String) (d : DType)
    (hc : (c, d) ∈ t.cols) :
    (d ∈ numericDtypes →
      c ∈ (generate_summary_stats describeFn t).numeric_columns ∧
      c ∉ (generate_summary_stats describeFn t).categorical_columns) ∧
    (d ∈ categoricalDtypes →
      c ∈ (generate_summary_stats describeFn t).categorical_columns ∧
      c ∉ (generate_summary_stats describeFn t).numeric_columns) ∧
    (d ∉ numericDtypes → d ∉ categoricalDtypes →
      c ∉ (generate_summary_stats describeFn t).numeric_columns ∧
      c ∉ (generate_summary_stats describeFn t).categorical_columns) := by
  have hnodup' : (t.cols.map Prod.fst).Nodup := hnodup
  have hnum : (generate_summary_stats describeFn t).numeric_columns
      = selectDtypeCols t numericDtypes := rfl
  have hcat : (generate_summary_stats describeFn t).categorical_columns
      = selectDtypeCols t categoricalDtypes := rfl
  rw [hnum, hcat]
  refine ⟨fun hd => ⟨?_, ?_⟩, fun hd => ⟨?_, ?_⟩, fun hd1 hd2 => ⟨?_, ?_⟩⟩
  · exact mem_selectDtypeCols.2 ⟨d, hc, hd⟩
  · intro hmem
    obtain ⟨d', hc', hd'⟩ := mem_selectDtypeCols.1 hmem
    exact dtype_lists_disjoint hd (dtype_unique hnodup' hc hc' ▸ hd')
  · exact mem_selectDtypeCols.2 ⟨d, hc, hd⟩
  · intro hmem
    obtain ⟨d', hc', hd'⟩ := mem_selectDtypeCols.1 hmem
    exact dtype_lists_disjoint (dtype_unique hnodup' hc hc' ▸ hd') hd
  · intro hmem
    obtain ⟨d', hc', hd'⟩ := mem_selectDtypeCols.1 hmem
    exact hd1 (dtype_unique hnodup' hc hc' ▸ hd')
  · intro hmem
    obtain ⟨d', hc', hd'⟩ := mem_selectDtypeCols.1 hmem
    exact hd2 (dtype_unique hnodup' hc hc' ▸ hd')

/-- Witness for the amended C2 on a concrete two-column table. -/
theorem summary_partition_amended_witness :
    "a" ∈ (generate_summary_stats (fun _ _ => []) sampleTable).numeric_columns ∧
    "a" ∉ (generate_summary_stats (fun _ _ => []) sampleTable).categorical_columns :=
  (summary_partition_amended (fun _ _ => []) sampleTable (by decide) "a"
    DType.int64 (by decide)).1 (by decide)

/-! ### C7: row and column counts, empty sections stay present -/

/-- C7: generate_summary_stats reports the exact row and column counts,
for every table including the empty one, and an empty numeric or
categorical column set yields an empty (not absent) summary section. -/
theorem summary_counts
    (describeFn : Table → List String → List (String × List (String × Rat)))
    (t : Table) :
    (generate_summary_stats describeFn t).row_count = t.rows.length ∧
    (generate_summary_stats describeFn t).column_count = t.cols.length ∧
    (selectDtypeCols t numericDtypes = [] →
      (generate_summary_stats describeFn t).numeric_summary = []) ∧
    (selectDtypeCols t categoricalDtypes = [] →
      (generate_summary_stats describeFn t).categorical_summary = []) := by
  refine ⟨rfl, rfl, ?_, ?_⟩ <;> intro h <;> simp [generate_summary_stats, h]

/-- Witness for C7 on the empty table. -/
theorem summary_counts_witness :
    (generate_summary_stats (fun _ _ => []) emptyTable).row_count = 0 ∧
    (generate_summary_stats (fun _ _ => []) emptyTable).column_count = 0 ∧
    (generate_summary_stats (fun _ _ => []) emptyTable).numeric_summary = [] ∧
    (generate_summary_stats (fun _ _ => []) emptyTable).categorical_summary = [] :=
  ⟨(summary_counts (fun _ _ => []) emptyTable).1,
   (summary_counts (fun _ _ => []) emptyTable).2.1,
   (summary_counts (fun _ _ => []) emptyTable).2.2.1 rfl,
   (summary_counts (fun _ _ => []) emptyTable).2.2.2 rfl⟩

/-! ### C9: process_data never mutates the caller's table -/

/-- One loop iteration only ever extends the heap. -/
lemma applyOpRef_heap_extends (s : PyState) (pr : Nat) (op : String)
    (p : Params) : s.heap <+: (applyOpRef s pr op p).1.heap := by
  unfold applyOpRef
  split
  · split
    · exact ⟨_, rfl⟩
    · exact List.prefix_rfl
  · exact List.prefix_rfl

/-- The whole loop only ever extends the heap. -/
lemma processGoRef_heap_extends (ops : List (String × Params)) :
    ∀ (s : PyState) (pr : Nat), s.heap <+: (processGoRef s pr ops).1.heap := by
  induction ops with
  | nil => intro s pr; exact List.prefix_rfl
  | cons hd tl ih =>
    intro s pr
    obtain ⟨op, p⟩ := hd
    have h1 := applyOpRef_heap_extends s pr op p
    simp only [processGoRef]
    rcases hap : applyOpRef s pr op p with ⟨s1, res⟩
    rw [hap] at h1
    cases res with
    | ok pr1 => exact h1.trans (ih s1 pr1)
    | error e => exact h1

/-- Reading inside the common part of an extended heap gives the old
value. -/
lemma heapExtends_getD_eq {l1 l2 : List Table} (h : l1 <+: l2) {r : Nat}
    (hr : r < l1.length) (d : Table) : l2.getD r d = l1.getD r d := by
  obtain ⟨ext, rfl⟩ := h
  simp [List.getD, List.getElem?_append_left hr]

/-- C9: for every heap, valid table reference and operation list,
running process_data leaves the caller's table unchanged: the engine
copies the input and every operation allocates a new table, so the
object the caller holds is never written. -/
theorem process_data_no_input_mutation (s : PyState) (r : Nat)
    (ops : List (String × Params)) (hr : r < s.heap.length) :
    deref (process_dataRef s r ops).1 r = deref s r := by
  have h1 : s.heap <+: ((alloc s (deref s r)).1).heap := ⟨_, rfl⟩
  have h2 := processGoRef_heap_extends ops (alloc s (deref s r)).1
    (alloc s (deref s r)).2
  exact heapExtends_getD_eq (h1.trans h2) hr emptyTable

/-- Witness for C9: a one-object heap, a filter operation, the input
object unchanged afterwards. -/
theorem process_data_no_input_mutation_witness :
    deref (process_dataRef ⟨[sampleTable]⟩ 0
        [("filter", Params.filterP [("a", Value.int 1)])]).1 0
      = deref ⟨[sampleTable]⟩ 0 :=
  process_data_no_input_mutation ⟨[sampleTable]⟩ 0
    [("filter", Params.filterP [("a", Value.int 1)])] (by decide)

/-! ### C6: the loader dispatch on extension and input shape -/

/-- Every character list occurs at its own start. -/
lemma leadsWith_self (l : List Char) : leadsWith l l = true := by
  induction l with
  | nil => rfl
  | cons c cs ih => simp [leadsWith, ih]

/-- Every character list occurs inside itself. -/
lemma hasRun_self (l : List Char) : hasRun l l = true := by
  cases l with
  | nil => rfl
  | cons c cs => simp [hasRun, leadsWith_self]

/-- A trailing run is found regardless of what stands before it. -/
lemma hasRun_append (pat : List Char) (xs : List Char) :
    hasRun pat (xs ++ pat) = true := by
  induction xs with
  | nil => simpa using hasRun_self pat
  | cons x xs ih =>
    cases pat with
    | nil => simp [hasRun, leadsWith] at *
    | cons p ps => simp [hasRun, ih]

/-- A message built by appending the offending name mentions it. -/
lemma mentions_append_self (name : String) (pre : String) :
    mentions (pre ++ name) name = true := by
  simp only [mentions, String.data_append]
  exact hasRun_append name.data pre.data

/-- C6 counterexample: an input of an unsupported Python type fails
with the fixed message Invalid file input type, which does not mention
the offending type; two different offending types produce the identical
error, so the error cannot carry the offending type. -/
theorem load_data_bad_type_counterexample :
    load_data (fun _ => emptyTable) (fun _ => "") (UploadInput.other "DataFrame")
      = Except.error (PError.valueError "Invalid file input type") ∧
    mentions "Invalid file input type" "DataFrame" = false ∧
    load_data (fun _ => emptyTable) (fun _ => "") (UploadInput.other "DataFrame")
      = load_data (fun _ => emptyTable) (fun _ => "") (UploadInput.other "bytes") :=
  ⟨rfl, by decide, rfl⟩

/-- C6 (amended): a named stream or a path string whose name ends in
.csv is parsed as comma-delimited text with a header row, one ending in
.xlsx as a spreadsheet; any other extension fails with an error
carrying the offending name, while an input that is neither a named
stream nor a path string fails with the fixed message Invalid file
input type (not carrying the offending type); the data.csv example
parses to a 2-row, 2-column table. -/
theorem load_data_dispatch (readExcel : String → Table)
    (fs : String → String) (name content path : String) :
    (strEndsWith name ".csv" = true →
      load_data readExcel fs (UploadInput.namedStream name content)
        = Except.ok (read_csv content)) ∧
    (strEndsWith name ".csv" = false → strEndsWith name ".xlsx" = true →
      load_data readExcel fs (UploadInput.namedStream name content)
        = Except.ok (readExcel content)) ∧
    (strEndsWith name ".csv" = false → strEndsWith name ".xlsx" = false →
      load_data readExcel fs (UploadInput.namedStream name content)
        = Except.error (PError.valueError
            ("Unsupported file format: " ++ name)) ∧
      mentions ("Unsupported file format: " ++ name) name = true) ∧
    (strEndsWith path ".csv" = true →
      load_data readExcel fs (UploadInput.pathString path)
        = Except.ok (read_csv (fs path))) ∧
    (strEndsWith path ".csv" = false → strEndsWith path ".xlsx" = true →
      load_data readExcel fs (UploadInput.pathString path)
        = Except.ok (readExcel (fs path))) ∧
    (strEndsWith path ".csv" = false → strEndsWith path ".xlsx" = false →
      load_data readExcel fs (UploadInput.pathString path)
        = Except.error (PError.valueError
            ("Unsupported file format: " ++ path)) ∧
      mentions ("Unsupported file format: " ++ path) path = true) ∧
    (∀ ty, load_data readExcel fs (UploadInput.other ty)
      = Except.error (PError.valueError "Invalid file input type")) ∧
    (read_csv "a,b\n1,2\n3,4").rows.length = 2 ∧
    (read_csv "a,b\n1,2\n3,4").cols.length = 2 := by
  refine ⟨fun h => ?_, fun h1 h2 => ?_, fun h1 h2 => ⟨?_, ?_⟩,
    fun h => ?_, fun h1 h2 => ?_, fun h1 h2 => ⟨?_, ?_⟩,
    fun _ => rfl, by decide, by decide⟩
  · simp [load_data, h]
  · simp [load_data, h1, h2]
  · simp [load_data, h1, h2]
  · exact mentions_append_self name "Unsupported file format: "
  · simp [load_data, h]
  · simp [load_data, h1, h2]
  · simp [load_data, h1, h2]
  · exact mentions_append_self path "Unsupported file format: "

/-- Witness for the amended C6: the concrete data.csv example succeeds
as a named stream and as a path string, data.txt fails with the error
naming data.txt, and a path with a .txt extension fails with the error
naming the path. -/
theorem load_data_dispatch_witness :
    load_data (fun _ => emptyTable) (fun _ => "a,b\n1,2\n3,4")
        (UploadInput.namedStream "data.csv" "a,b\n1,2\n3,4")
      = Except.ok (read_csv "a,b\n1,2\n3,4") ∧
    load_data (fun _ => emptyTable) (fun _ => "a,b\n1,2\n3,4")
        (UploadInput.namedStream "data.txt" "anything")
      = Except.error (PError.valueError "Unsupported file format: data.txt") ∧
    load_data (fun _ => emptyTable) (fun _ => "a,b\n1,2\n3,4")
        (UploadInput.pathString "table.csv")
      = Except.ok (read_csv "a,b\n1,2\n3,4") ∧
    load_data (fun _ => emptyTable) (fun _ => "a,b\n1,2\n3,4")
        (UploadInput.pathString "notes.txt")
      = Except.error (PError.valueError "Unsupported file format: notes.txt") ∧
    (read_csv "a,b\n1,2\n3,4").rows.length = 2 ∧
    (read_csv "a,b\n1,2\n3,4").cols.length = 2 :=
  ⟨(load_data_dispatch (fun _ => emptyTable) (fun _ => "a,b\n1,2\n3,4")
      "data.csv" "a,b\n1,2\n3,4" "x").1 (by decide),
   ((load_data_dispatch (fun _ => emptyTable) (fun _ => "a,b\n1,2\n3,4")
      "data.txt" "anything" "x").2.2.1 (by decide) (by decide)).1,
   (load_data_dispatch (fun _ => emptyTable) (fun _ => "a,b\n1,2\n3,4")
      "x" "x" "table.csv").2.2.2.1 (by decide),
   ((load_data_dispatch (fun _ => emptyTable) (fun _ => "a,b\n1,2\n3,4")
      "x" "x" "notes.txt").2.2.2.2.2.1 (by decide) (by decide)).1,
   (load_data_dispatch (fun _ => emptyTable) (fun _ => "a,b\n1,2\n3,4")
      "x" "x" "x").2.2.2.2.2.2.2.1,
   (load_data_dispatch (fun _ => emptyTable) (fun _ => "a,b\n1,2\n3,4")
      "x" "x" "x").2.2.2.2.2.2.2.2⟩

end StreamlitTest
